import Mathlib

/-!
Verification development for the HTMLRunner preview-execution pipeline.

The definitions below are a shallow embedding of the TypeScript sources:
  * `src/Build/src/runner.ts`  — `runCode` (orchestrator, builder, blob lifecycle)
  * `src/Build/src/console.ts` — `handleConsoleMessage`, `renderObject`, `logConsoleError`
  * `src/Build/src/ui.ts`      — `showLoading` / `hideLoading` / `showError` / `switchOutput`

Pure string manipulation is translated directly.  Browser primitives that the
code calls (DOMParser, Blob/URL, DOM nodes, postMessage events) are given
explicit small models whose relevant observable behaviour matches the browser:
a parsed document is a pair of head/body child lists, a blob URL is a natural
number, the console view is a list of entry texts.
-/

set_option maxHeartbeats 1000000

namespace HTMLRunner

/-! ### JavaScript string primitives used by the code -/

/-- Characters matched by JavaScript's `\s` regex class; the same set is
stripped by `String.prototype.trim`. -/
def jsWhitespace (c : Char) : Bool :=
  c = ' ' || c = '\t' || c = '\n' || c = '\r' || c = '\x0b' || c = '\x0c' ||
  c = '\u00A0' || c = '\u1680' || ('\u2000' ≤ c && c ≤ '\u200A') ||
  c = '\u2028' || c = '\u2029' || c = '\u202F' || c = '\u205F' ||
  c = '\u3000' || c = '\uFEFF'

/-- JavaScript `String.prototype.trim`: strips `jsWhitespace` from both ends.
The code only ever tests the result for truthiness (non-emptiness). -/
def jsTrim (s : String) : String :=
  ⟨((s.data.dropWhile jsWhitespace).reverse.dropWhile jsWhitespace).reverse⟩

/-- `pat` (given lowercase) matches at the head of `cs` up to ASCII lowercasing
of `cs`, as in a case-insensitive regex literal match. -/
def lowerStarts : List Char → List Char → Bool
  | [], _ => true
  | _ :: _, [] => false
  | p :: ps, c :: cs => p = c.toLower && lowerStarts ps cs

/-- Does `/<html[\s>]|<!doctype html/i` match at the start of `cs`? -/
def fullHtmlAt (cs : List Char) : Bool :=
  (lowerStarts "<html".data cs &&
    (match cs.drop 5 with
     | [] => false
     | d :: _ => jsWhitespace d || d = '>')) ||
  lowerStarts "<!doctype html".data cs

/-- Scan for a match of `/<html[\s>]|<!doctype html/i` anywhere in the text. -/
def isFullHtmlAux : List Char → Bool
  | [] => false
  | c :: cs => fullHtmlAt (c :: cs) || isFullHtmlAux cs

/-- `const isFullHtml = /<html[\s>]|<!doctype html/i.test(html)`
(src/Build/src/runner.ts:30). -/
def isFullHtml (s : String) : Bool := isFullHtmlAux s.data

/-! ### The console instrumentation shim (src/Build/src/console.ts:6-23)

The exact text of the `consoleInterceptor` template literal.  Curly braces are
written with `\x7b`/`\x7d` escapes and single quotes with `\x27`; the resulting
string is character-for-character the value of the TypeScript constant. -/

/-- The instrumentation-shim source injected into every built document. -/
def consoleInterceptor : String :=
  "\n    const originalConsole = \x7b log: console.log, error: console.error, warn: console.warn, info: console.info \x7d;\n    function sendToConsole(level, ...args) \x7b\n        window.parent.postMessage(\x7b type: \x27console\x27, level, data: args, timestamp: new Date().toISOString() \x7d, \x27*\x27);\n        originalConsole[level].apply(console, args);\n    \x7d\n    console.log = (...args) => sendToConsole(\x27log\x27, ...args);\n    console.error = (...args) => sendToConsole(\x27error\x27, ...args);\n    console.warn = (...args) => sendToConsole(\x27warn\x27, ...args);\n    console.info = (...args) => sendToConsole(\x27info\x27, ...args);\n    window.onerror = (message, source, lineno, colno, error) => \x7b\n        sendToConsole(\x27error\x27, error || message, \x7b stack: error?.stack \x7d);\n        return true;\n    \x7d;\n    window.onunhandledrejection = (event) => \x7b\n        sendToConsole(\x27error\x27, event.reason, \x7b stack: event.reason?.stack \x7d);\n    \x7d;\n"

/-! ### Document model for the full-document branch

`DOMParser.parseFromString(html, "text/html")` yields a document which always
has `<head>` and `<body>` elements (so the `if (!doc.head)` guard in
runner.ts:34-38 is never taken); we model the parse result as the two child
lists.  A child is a `<script>` or `<style>` element carrying its text content,
or any other node (identified by a label). -/

inductive HNode where
  | script : String → HNode
  | style : String → HNode
  | other : String → HNode
deriving DecidableEq, Repr

/-- A parsed HTML document: the children of `<head>` and of `<body>`. -/
structure HDoc where
  head : List HNode
  body : List HNode
deriving DecidableEq, Repr

/-- The full-document branch of `runCode` after parsing
(src/Build/src/runner.ts:39-51):
append the shim `<script>` to `<head>`, then a `<style>` for non-blank CSS to
`<head>`, then a `<script>` for non-blank JS to `<body>`. -/
def buildFullDoc (doc : HDoc) (css js : String) : HDoc :=
  let doc := { doc with head := doc.head ++ [HNode.script consoleInterceptor] }
  let doc :=
    if jsTrim css ≠ "" then { doc with head := doc.head ++ [HNode.style css] }
    else doc
  if jsTrim js ≠ "" then { doc with body := doc.body ++ [HNode.script js] }
  else doc

/-- Serialization of a child node back to markup text.  The text content of
`<script>`/`<style>` is reproduced verbatim; other nodes serialize through
their label (a stand-in for `outerHTML` of arbitrary markup, which the claims
never inspect). -/
def serializeNode : HNode → String
  | .script s => "<script>" ++ s ++ "</script>"
  | .style s => "<style>" ++ s ++ "</style>"
  | .other t => "<" ++ t ++ ">"

/-- `doc.documentElement.outerHTML` (src/Build/src/runner.ts:52). -/
def serializeDoc (d : HDoc) : String :=
  "<html><head>" ++ String.join (d.head.map serializeNode) ++
    "</head><body>" ++ String.join (d.body.map serializeNode) ++ "</body></html>"

/-! ### The fragment branch (src/Build/src/runner.ts:54-68) -/

/-- The exact array of string pieces joined by the fragment branch. -/
def fragmentParts (html css js : String) : List String :=
  ["<!DOCTYPE html><html><head><meta charset=\"UTF-8\">",
   "<style>", css, "</style>",
   "<script>", consoleInterceptor, "</script>",
   "</head><body>", html, "</body>",
   "<script>", js, "</script></html>"]

/-- `docContent` in fragment mode: `[...].join("")`. -/
def buildFragment (html css js : String) : String :=
  String.join (fragmentParts html css js)

/-- Document assembly (src/Build/src/runner.ts:29-69) as a function of the
source bundle.  The browser's HTML parser is passed in as `parse`; it is only
consulted in the full-document branch. -/
def runBuild (parse : String → HDoc) (html css js : String) : String :=
  if isFullHtml html then serializeDoc (buildFullDoc (parse html) css js)
  else buildFragment html css js

/-! ### The run orchestrator (src/Build/src/runner.ts:12-86)

`runCode` mutates browser state: the loading indicator and error banner
(ui.ts), the console view (console.ts), the preview iframe's `src`, its
registered `load` listeners, and the set of live blob URLs.  We model that
state explicitly.  Blob URLs are numbered in creation order (`nextUrl` is the
next fresh number); `builtDocs` logs every document string ever handed to
`new Blob`; `saved` counts `saveState()` calls. -/

structure AppState where
  loadingVisible : Bool
  consoleEntries : List String
  errorBanner : Option String
  nextUrl : Nat
  listeners : List Nat
  previewSrc : Option Nat
  revocations : List Nat
  builtDocs : List String
  output : String
  saved : Nat
deriving DecidableEq, Repr

/-- `showLoading()` (ui.ts:21-23). -/
def showLoading (s : AppState) : AppState := { s with loadingVisible := true }

/-- `hideLoading()` (ui.ts:25-27). -/
def hideLoading (s : AppState) : AppState := { s with loadingVisible := false }

/-- `showError(message)` (ui.ts:29-33): fills the error banner. -/
def showError (m : String) (s : AppState) : AppState := { s with errorBanner := some m }

/-- `clearConsole()` (console.ts:105-107). -/
def clearConsole (s : AppState) : AppState := { s with consoleEntries := [] }

/-- `logConsoleError(message)` (console.ts:108-129): appends one entry whose
message text is `message` (the timestamp span is not part of the message). -/
def logConsoleError (m : String) (s : AppState) : AppState :=
  { s with consoleEntries := s.consoleEntries ++ [m] }

/-- `switchOutput("preview")` (ui.ts:58-80): records the active output view and
calls `saveState()`. -/
def switchOutput (o : String) (s : AppState) : AppState :=
  { s with output := o, saved := s.saved + 1 }

/-- `saveState()` (state.ts). -/
def saveState (s : AppState) : AppState := { s with saved := s.saved + 1 }

/-- `runCode()` (src/Build/src/runner.ts:12-86).

Parameters standing for browser primitives:
* `parse` — `DOMParser.parseFromString · "text/html"`;
* `previewOk` — whether `document.getElementById("preview")` yields an
  `HTMLIFrameElement` (the only `throw` site inside the `try`);
* `jsParseError` — the outcome of `new Function(js)`: `some m` means it throws
  a `SyntaxError` with message `m`, `none` means `js` parses.  The check is
  only attempted when `js.trim()` is truthy (runner.ts:22).

The `finally` block's `hideLoading()` runs on the early `return` of the
syntax-error path, on the caught-exception path and on the success path. -/
def runCode (parse : String → HDoc) (previewOk : Bool) (jsParseError : Option String)
    (html css js : String) (s : AppState) : AppState :=
  let s := showLoading s
  let s := clearConsole s
  match (if jsTrim js ≠ "" then jsParseError else none) with
  | some m =>
      let s := logConsoleError ("SyntaxError: " ++ m) s
      let s := hideLoading s
      hideLoading s
  | none =>
      let docContent := runBuild parse html css js
      let s := { s with builtDocs := s.builtDocs ++ [docContent] }
      let url := s.nextUrl
      let s := { s with nextUrl := s.nextUrl + 1 }
      if previewOk then
        let s := { s with previewSrc := some url, listeners := s.listeners ++ [url] }
        let s := switchOutput "preview" s
        let s := saveState s
        hideLoading s
      else
        let s := showError "Error running code: Preview element not found or is not an iframe" s
        hideLoading s

/-! ### Blob-URL lifecycle across runs and load events
(src/Build/src/runner.ts:71-78)

Every run executes `preview.addEventListener("load", () => URL.revokeObjectURL(url))`
on the same `#preview` element with a fresh closure, so listeners accumulate
across runs and are never removed.  When the iframe fires `load`, every
registered listener runs and revokes its captured URL.  We study all
interleavings of the two events. -/

inductive HostEvent where
  | run
  | load
deriving DecidableEq, Repr

structure HostState where
  nextUrl : Nat
  listeners : List Nat
  src : Option Nat
  revocations : List Nat
deriving DecidableEq, Repr

def HostState.init : HostState := ⟨0, [], none, []⟩

/-- One `runCode` call, projected onto the blob lifecycle: create a fresh URL,
assign it to `preview.src`, register one more `load` listener. -/
def hostRun (s : HostState) : HostState :=
  { s with nextUrl := s.nextUrl + 1, src := some s.nextUrl,
           listeners := s.listeners ++ [s.nextUrl] }

/-- The iframe's `load` event: every accumulated listener fires, revoking its
captured URL; no listener is removed. -/
def hostLoad (s : HostState) : HostState :=
  { s with revocations := s.revocations ++ s.listeners }

def hostStep (s : HostState) : HostEvent → HostState
  | .run => hostRun s
  | .load => hostLoad s

/-- The host state after a sequence of run / load events. -/
def hostTrace (evts : List HostEvent) : HostState :=
  evts.foldl hostStep HostState.init

/-- How often the code revokes URL `u` over the course of `evts`, starting from
`n` already-created URLs: once for every `load` event that comes after the run
that created `u` (i.e. at a point where more than `u` runs have happened). -/
def futureRevokes : List HostEvent → Nat → Nat → Nat
  | [], _, _ => 0
  | .run :: rest, n, u => futureRevokes rest (n + 1) u
  | .load :: rest, n, u => (if u < n then 1 else 0) + futureRevokes rest n u

/-! ### The console object renderer (src/Build/src/console.ts:64-102)

JavaScript objects live on a heap and are compared by identity (the `WeakSet`
of visited objects), so values are modelled as references into an explicit
heap: `JSVal.vobj a` is a reference to the `a`-th heap cell.  A heap cell is an
`Error` instance, an array, or a plain object with an ordered field list
(`Object.entries` order).  Primitives carry their own data. -/

inductive Prim where
  | pstr : String → Prim
  | pint : Int → Prim
  | pbool : Bool → Prim
  | pundef : Prim
deriving DecidableEq, Repr

/-- JavaScript `String(p)` for the modelled primitives. -/
def primToString : Prim → String
  | .pstr s => s
  | .pint n => toString n
  | .pbool b => if b then "true" else "false"
  | .pundef => "undefined"

inductive JSVal where
  | vnull : JSVal
  | vprim : Prim → JSVal
  | vobj : Nat → JSVal
deriving DecidableEq, Repr

inductive HObj where
  | errObj : String → String → Option String → HObj
  | arrObj : List JSVal → HObj
  | plainObj : List (String × JSVal) → HObj
deriving DecidableEq, Repr

/-- The DOM subtree produced by `renderObject`, abstracted to the data the
claims observe: a text node with its literal text, the Error span with its
text, or the container span (collapsed preview text plus the per-key child
list of the `console-object-content` div). -/
inductive RNode where
  | text : String → RNode
  | errSpan : String → RNode
  | objNode : String → List (String × RNode) → RNode
deriving Repr

/-- `obj.stack.split('\n').slice(1).join('\n')` (console.ts:78). -/
def dropFirstLine (s : String) : String :=
  String.intercalate "\n" ((s.splitOn "\n").drop 1)

/-- The text of the Error branch (console.ts:73-81): name, ": ", message, and —
when `obj.stack` is truthy, i.e. present and non-empty — a newline plus the
stack with its first line stripped. -/
def errText (name msg : String) (stack : Option String) : String :=
  match stack with
  | some st => if st = "" then name ++ ": " ++ msg
               else name ++ ": " ++ msg ++ "\n" ++ dropFirstLine st
  | none => name ++ ": " ++ msg

/-- `Object.entries` of an array: index keys in order. -/
def arrayEntries (elems : List JSVal) : List (String × JSVal) :=
  (List.range elems.length).zip elems |>.map fun p => (toString p.1, p.2)

mutual

/-- `renderObject(obj, level, visited)` (src/Build/src/console.ts:64-102).

Checks in source order: `null`, non-object, the visited (identity) set, the
depth guard `level > 3`; then the object is added to the shared visited set and
dispatched on Error / array / plain object.  The `WeakSet` is a single mutable
set threaded through the whole recursion, so the updated set is returned
alongside the node.  A dangling reference cannot arise from a real JavaScript
heap; it renders like an empty plain object. -/
def render (heap : List HObj) (v : JSVal) (level : Nat) (visited : List Nat) :
    RNode × List Nat :=
  match v with
  | .vnull => (.text "null", visited)
  | .vprim p => (.text (primToString p), visited)
  | .vobj a =>
      if visited.contains a then (.text "[Circular]", visited)
      else if level > 3 then (.text "[...]", visited)
      else
        match heap[a]? with
        | none => (.objNode "\x7b...\x7d" [], a :: visited)
        | some (.errObj name msg stack) => (.errSpan (errText name msg stack), a :: visited)
        | some (.arrObj elems) =>
            let r := renderProps heap (arrayEntries elems) (level + 1) (a :: visited)
            (.objNode ("Array(" ++ toString elems.length ++ ")") r.1, r.2)
        | some (.plainObj fields) =>
            let r := renderProps heap fields (level + 1) (a :: visited)
            (.objNode "\x7b...\x7d" r.1, r.2)
termination_by (4 - level, 0)
decreasing_by
  all_goals simp_wf
  all_goals first
    | (apply Prod.Lex.left; omega)
    | (apply Prod.Lex.right; omega)

/-- The `Object.entries(obj).forEach` loop (console.ts:89-94): each value is
rendered at the children's level (`level + 1` at the call site), threading the
shared visited set left to right. -/
def renderProps (heap : List HObj) (fields : List (String × JSVal)) (lvl : Nat)
    (visited : List Nat) : List (String × RNode) × List Nat :=
  match fields with
  | [] => ([], visited)
  | (k, v) :: rest =>
      let r1 := render heap v lvl visited
      let r2 := renderProps heap rest lvl r1.2
      ((k, r1.1) :: r2.1, r2.2)
termination_by (4 - lvl, fields.length + 1)
decreasing_by
  all_goals simp_wf
  all_goals first
    | (apply Prod.Lex.left; omega)
    | (apply Prod.Lex.right; omega)

end

mutual

/-- Number of text nodes with literal text `s` in a rendered tree. -/
def countText (s : String) : RNode → Nat
  | .text t => if t = s then 1 else 0
  | .errSpan _ => 0
  | .objNode _ props => countTextProps s props

def countTextProps (s : String) : List (String × RNode) → Nat
  | [] => 0
  | (_, n) :: rest => countText s n + countTextProps s rest

end

/-! ### The message relay (src/Build/src/console.ts:30-62)

`handleConsoleMessage` begins with `if (event.data.type === 'console')`.
`event.data` is whatever payload arrived: reading `.type` on an object looks
the property up, on a non-null primitive yields `undefined`, and on `null` or
`undefined` throws a `TypeError`.  The payload model keeps the one field the
guard reads; the body of the `console` branch (entry construction) is
summarised as appending one entry for the message. -/

inductive JData where
  | jnull : JData
  | jundef : JData
  | jprim : Prim → JData
  | jobj : Option String → JData
deriving DecidableEq, Repr

inductive JSError where
  | typeError : JSError
deriving DecidableEq, Repr

/-- Evaluation of `event.data.type`. -/
def getTypeField : JData → Except JSError (Option String)
  | .jnull => .error .typeError
  | .jundef => .error .typeError
  | .jprim _ => .ok none
  | .jobj t => .ok t

/-- `handleConsoleMessage` acting on the console view (a list of entries). -/
def handleConsoleMessage (d : JData) (view : List String) :
    Except JSError (List String) :=
  match getTypeField d with
  | .error e => .error e
  | .ok t =>
      if t = some "console" then .ok (view ++ ["console entry"])
      else .ok view

/-! ### Helper lemmas -/

/-- Count of a value in `List.range n`: one when below `n`, else zero. -/
theorem count_range (n u : Nat) : (List.range n).count u = if u < n then 1 else 0 := by
  by_cases h : u < n
  · rw [if_pos h]
    exact List.count_eq_one_of_mem (List.nodup_range n) (List.mem_range.mpr h)
  · rw [if_neg h, List.count_eq_zero_of_not_mem]
    simpa using h

/-- Invariant of the blob-URL machine: as long as the registered listeners are
exactly the URLs created so far, the number of revocations of `u` grows by one
for every `load` event occurring when more than `u` runs have happened. -/
theorem hostTrace_count_aux (evts : List HostEvent) :
    ∀ (s : HostState) (u : Nat), s.listeners = List.range s.nextUrl →
      ((evts.foldl hostStep s).revocations).count u =
        s.revocations.count u + futureRevokes evts s.nextUrl u := by
  induction evts with
  | nil => intro s u _; simp [futureRevokes]
  | cons e rest ih =>
      intro s u hinv
      cases e with
      | run =>
          have h1 : (hostRun s).listeners = List.range (hostRun s).nextUrl := by
            simp [hostRun, hinv, List.range_succ]
          have := ih (hostRun s) u h1
          simpa [hostStep, hostRun, futureRevokes] using this
      | load =>
          have h1 : (hostLoad s).listeners = List.range (hostLoad s).nextUrl := by
            simp [hostLoad, hinv]
          have := ih (hostLoad s) u h1
          rw [List.foldl_cons]
          simp only [hostStep] at this ⊢
          rw [this]
          simp [hostLoad, hinv, futureRevokes, List.count_append, count_range]
          omega

/-! ### Claim C1 — placement of the instrumentation shim in `<head>` -/

/-- Claim C1 as stated is false.  The browser's parse of
`"<html><head><meta charset=\"UTF-8\"></head><body></body></html>"` — which
`isFullHtml` detects as a full document — is a document whose `<head>` holds
the one `<meta>` element; `runCode` then executes `doc.head.appendChild(script)`
(runner.ts:41), so the first child of the built `<head>` is still the original
`<meta>`, not the instrumentation-shim `<script>`. -/
theorem C1_counterexample :
    isFullHtml "<html><head><meta charset=\"UTF-8\"></head><body></body></html>" = true ∧
    (buildFullDoc ⟨[HNode.other "meta"], []⟩ "" "").head.head? = some (HNode.other "meta") ∧
    HNode.other "meta" ≠ HNode.script consoleInterceptor :=
  ⟨by decide, by decide, by decide⟩

/-- Claim C1 amended: in the full-document branch the shim `<script>` is
*appended* to `<head>` — it follows every head child originally present in the
user's html (and precedes only the conditionally-added `<style>`); the built
`<body>` gains the user `<script>` at its end when `js` is non-blank. -/
theorem C1_amended_shim_appended (doc : HDoc) (css js : String) :
    (buildFullDoc doc css js).head =
      doc.head ++ [HNode.script consoleInterceptor] ++
        (if jsTrim css = "" then [] else [HNode.style css]) ∧
    (buildFullDoc doc css js).body =
      doc.body ++ (if jsTrim js = "" then [] else [HNode.script js]) := by
  by_cases h1 : jsTrim css = "" <;> by_cases h2 : jsTrim js = "" <;>
    simp [buildFullDoc, h1, h2]

/-! ### Claim C2 — fragment mode style/script emission -/

/-- Claim C2 as stated is false.  For the bundle
`html = "hello"`, `css = ""`, `js = "x=1"` the CSS trims to the empty string,
yet the fragment branch (an unconditional `[...].join("")`, runner.ts:54-68)
still emits the `<style>` element — the output is literally
`...<meta charset="UTF-8"><style></style><script>...`; nothing is skipped for
empty inputs. -/
theorem C2_counterexample :
    jsTrim "" = "" ∧
    buildFragment "hello" "" "x=1" =
      "<!DOCTYPE html><html><head><meta charset=\"UTF-8\">" ++ "<style>" ++
        ("" ++ ("</style>" ++ ("<script>" ++ (consoleInterceptor ++ ("</script>" ++
          ("</head><body>" ++ ("hello" ++ ("</body>" ++ ("<script>" ++ ("x=1" ++
            "</script></html>")))))))))) := by
  constructor
  · rfl
  · apply String.ext
    simp [buildFragment, fragmentParts, String.join, String.data_append]

/-- Claim C2 amended: in fragment mode the built document is always the fixed
concatenation below — one `<style>` element holding `css` verbatim and one
trailing `<script>` holding `js` verbatim are emitted *unconditionally*,
whether or not `css` or `js` trim to the empty string. -/
theorem C2_amended_unconditional_emission (html css js : String) :
    buildFragment html css js =
      ("<!DOCTYPE html><html><head><meta charset=\"UTF-8\">" ++ "<style>" ++ css ++
        "</style>" ++ "<script>" ++ consoleInterceptor ++ "</script>" ++ "</head><body>" ++
        html ++ "</body>" ++ "<script>") ++ (js ++ "</script></html>") := by
  apply String.ext
  simp [buildFragment, fragmentParts, String.join, String.data_append]

/-! ### Claim C3 — blob-URL revocation lifecycle -/

/-- Claim C3 as stated is false.  Over the event sequence
run₁, load₁, run₂, load₂ the URL of the first run is passed to
`URL.revokeObjectURL` twice: the first run's `load` listener is registered with
`addEventListener` (runner.ts:78) and never removed, so it fires again at the
second run's load event. -/
theorem C3_counterexample :
    ((hostTrace [.run, .load, .run, .load]).revocations).count 0 = 2 := by decide

/-- Claim C3 amended: a run's URL is revoked once per `load` event of the
preview that fires after that run — never eagerly on the next run.  Hence a
URL is revoked repeatedly when further loads follow (the listener persists),
and not at all if no load follows its run. -/
theorem C3_amended_revocation_count (evts : List HostEvent) (u : Nat) :
    ((hostTrace evts).revocations).count u = futureRevokes evts 0 u := by
  have := hostTrace_count_aux evts HostState.init u (by simp [HostState.init])
  simpa [hostTrace, HostState.init] using this

/-! ### Claim C4 — the syntax-error path of `run()` -/

/-- Claim C4 confirmed.  When `js` is non-blank and `new Function(js)` throws a
syntax error with message `m`, `runCode` leaves the state unchanged except for
exactly one console entry `"SyntaxError: " ++ m` (which contains the substring
"SyntaxError": it equals `"SyntaxError" ++ (": " ++ m)`) and the hidden loading
indicator.  In particular no document is built (`builtDocs` unchanged), no blob
URL is created (`nextUrl` unchanged), and the preview is not touched
(`previewSrc` and `listeners` unchanged — the previous preview survives). -/
theorem C4_syntax_error_aborts (parse : String → HDoc) (previewOk : Bool)
    (m html css js : String) (s : AppState) (h : jsTrim js ≠ "") :
    runCode parse previewOk (some m) html css js s =
      { s with consoleEntries := ["SyntaxError: " ++ m], loadingVisible := false } ∧
    "SyntaxError: " ++ m = "SyntaxError" ++ (": " ++ m) := by
  constructor
  · simp [runCode, h, showLoading, clearConsole, logConsoleError, hideLoading]
  · apply String.ext
    simp [String.data_append]

/-- Witness for C4: the invalid program `js = "function("`. -/
theorem C4_witness :
    jsTrim "function(" ≠ "" ∧
    runCode (fun _ => ⟨[], []⟩) true (some "Unexpected end of input") "<p>hi</p>" ""
        "function(" ⟨true, ["stale"], none, 3, [0], some 2, [], ["old"], "console", 5⟩ =
      { loadingVisible := false,
        consoleEntries := ["SyntaxError: Unexpected end of input"],
        errorBanner := none, nextUrl := 3, listeners := [0], previewSrc := some 2,
        revocations := [], builtDocs := ["old"], output := "console", saved := 5 } :=
  ⟨by decide,
   (C4_syntax_error_aborts (fun _ => ⟨[], []⟩) true "Unexpected end of input" "<p>hi</p>" ""
      "function(" ⟨true, ["stale"], none, 3, [0], some 2, [], ["old"], "console", 5⟩
      (by decide)).1⟩

/-! ### Claim C5 — null / primitive rendering and the depth guard -/

/-- Heap of a plain-object chain nested five levels deep
(`o0.k1 = o1`, `o1.k2 = o2`, `o2.k3 = o3`, `o3.k4 = o4`, `o4.k5 = 7`). -/
def chainHeap : List HObj :=
  [HObj.plainObj [("k1", .vobj 1)], HObj.plainObj [("k2", .vobj 2)],
   HObj.plainObj [("k3", .vobj 3)], HObj.plainObj [("k4", .vobj 4)],
   HObj.plainObj [("k5", .vprim (.pint 7))]]

/-- Heap in which object 1 is reachable both directly (depth 1) and through a
chain that reaches it again at depth 4. -/
def deepSharedHeap : List HObj :=
  [HObj.plainObj [("a", .vobj 1), ("b", .vobj 2)], HObj.plainObj [],
   HObj.plainObj [("c", .vobj 3)], HObj.plainObj [("d", .vobj 4)],
   HObj.plainObj [("e", .vobj 1)]]

/-- Claim C5 as stated is false on its depth clause.  In `deepSharedHeap`,
object 1 is reached again at recursion depth 4 (beyond 3 levels), but because
the visited check precedes the depth check (console.ts:67 before :68) it
renders as "[Circular]", not as "[...]": the rendered tree contains no "[...]"
at all and one "[Circular]". -/
theorem C5_counterexample :
    countText "[...]" (render deepSharedHeap (.vobj 0) 0 []).1 = 0 ∧
    countText "[Circular]" (render deepSharedHeap (.vobj 0) 0 []).1 = 1 := by
  constructor <;>
    simp [deepSharedHeap, render, renderProps, countText, countTextProps]

/-- Claim C5 amended: `null` renders as the text "null"; a non-object
primitive renders via its default string conversion; an object *not already
visited* that is reached at depth beyond 3 levels renders as "[...]"; and in a
fresh render of a five-level plain-object chain the "[...]" marker appears
exactly once — at depth 4, not deeper (already-visited objects render
"[Circular]" instead, regardless of depth). -/
theorem C5_amended_depth_guard :
    (∀ (heap : List HObj) (lvl : Nat) (visited : List Nat),
      render heap .vnull lvl visited = (.text "null", visited)) ∧
    (∀ (heap : List HObj) (p : Prim) (lvl : Nat) (visited : List Nat),
      render heap (.vprim p) lvl visited = (.text (primToString p), visited)) ∧
    (∀ (heap : List HObj) (a lvl : Nat) (visited : List Nat),
      a ∉ visited → lvl > 3 →
        render heap (.vobj a) lvl visited = (.text "[...]", visited)) ∧
    countText "[...]" (render chainHeap (.vobj 0) 0 []).1 = 1 ∧
    countText "[Circular]" (render chainHeap (.vobj 0) 0 []).1 = 0 := by
  refine ⟨fun heap lvl visited => by unfold render; rfl,
          fun heap p lvl visited => by unfold render; rfl,
          fun heap a lvl visited h h2 => by unfold render; simp [h, h2],
          by simp [chainHeap, render, renderProps, countText, countTextProps],
          by simp [chainHeap, render, renderProps, countText, countTextProps]⟩

/-- Witness for C5: a fresh object reference reached at depth 4 renders as the
text "[...]" . -/
theorem C5_witness :
    (5 : Nat) ∉ ([] : List Nat) ∧ (4 : Nat) > 3 ∧
    render [] (.vobj 5) 4 [] = (.text "[...]", []) :=
  ⟨by decide, by decide, C5_amended_depth_guard.2.2.1 [] 5 4 [] (by decide) (by decide)⟩

/-! ### Claim C6 — circular references render "[Circular]" -/

/-- Claim C6 as stated is false on its "exactly once" clause.  The object
`a = \x7b x: a, y: a \x7d` contains a reference cycle, and its render reaches
the already-visited `a` twice — once per field — so "[Circular]" appears
twice, not exactly once. -/
theorem C6_counterexample :
    countText "[Circular]"
      (render [HObj.plainObj [("x", .vobj 0), ("y", .vobj 0)]] (.vobj 0) 0 []).1 = 2 := by
  simp [render, renderProps, countText, countTextProps]

/-- Claim C6 amended: rendering a cyclic object terminates (render is a total
function of the heap) and produces "[Circular]" at *each* point where the walk
re-reaches an already-visited object; for an object whose single field refers
back to itself that is exactly one occurrence, whatever else the heap
contains. -/
theorem C6_amended_self_reference (k : String) (rest : List HObj) :
    render (HObj.plainObj [(k, .vobj 0)] :: rest) (.vobj 0) 0 [] =
      (.objNode "\x7b...\x7d" [(k, .text "[Circular]")], [0]) ∧
    countText "[Circular]"
      (render (HObj.plainObj [(k, .vobj 0)] :: rest) (.vobj 0) 0 []).1 = 1 := by
  constructor <;> simp [render, renderProps, countText, countTextProps]

/-! ### Claim C7 — document assembly is pure and total -/

/-- Claim C7 confirmed.  Whenever the syntax pre-check does not abort the run
(`js` blank, or `new Function(js)` succeeding), `runCode` always hands exactly
`runBuild parse html css js` to `new Blob` — building never fails, whatever the
html — and two runs over the same source bundle append the byte-identical
document string regardless of the surrounding host state (`s₁` vs `s₂`) and of
the preview wiring (`pOk₁` vs `pOk₂`): the output is a pure function of the
bundle (and of the browser's parse function). -/
theorem C7_build_pure (parse : String → HDoc) (pOk₁ pOk₂ : Bool) (jsErr : Option String)
    (html css js : String) (s₁ s₂ : AppState) (h : jsTrim js ≠ "" → jsErr = none) :
    (runCode parse pOk₁ jsErr html css js s₁).builtDocs =
      s₁.builtDocs ++ [runBuild parse html css js] ∧
    (runCode parse pOk₂ jsErr html css js s₂).builtDocs =
      s₂.builtDocs ++ [runBuild parse html css js] := by
  have key : ∀ (pOk : Bool) (s : AppState),
      (runCode parse pOk jsErr html css js s).builtDocs =
        s.builtDocs ++ [runBuild parse html css js] := by
    intro pOk s
    by_cases hj : jsTrim js = ""
    · cases pOk <;>
        simp [runCode, hj, showLoading, clearConsole, showError, hideLoading,
          switchOutput, saveState]
    · rw [h hj]
      cases pOk <;>
        simp [runCode, hj, showLoading, clearConsole, showError, hideLoading,
          switchOutput, saveState]
  exact ⟨key pOk₁ s₁, key pOk₂ s₂⟩

/-- Witness for C7: two runs of the bundle `("<p>hi</p>", "p \x7b color:red \x7d",
"console.log(1)")` from different host states build the same document. -/
theorem C7_witness :
    (runCode (fun _ => ⟨[], []⟩) true none "<p>hi</p>" "p red" "console.log(1)"
        ⟨false, [], none, 0, [], none, [], [], "preview", 0⟩).builtDocs =
      [] ++ [runBuild (fun _ => ⟨[], []⟩) "<p>hi</p>" "p red" "console.log(1)"] ∧
    (runCode (fun _ => ⟨[], []⟩) false none "<p>hi</p>" "p red" "console.log(1)"
        ⟨true, ["e"], some "b", 7, [3], some 3, [2], ["d"], "console", 9⟩).builtDocs =
      ["d"] ++ [runBuild (fun _ => ⟨[], []⟩) "<p>hi</p>" "p red" "console.log(1)"] :=
  C7_build_pure (fun _ => ⟨[], []⟩) true false none "<p>hi</p>" "p red" "console.log(1)"
    ⟨false, [], none, 0, [], none, [], [], "preview", 0⟩
    ⟨true, ["e"], some "b", 7, [3], some 3, [2], ["d"], "console", 9⟩
    (fun _ => rfl)

/-! ### Claim C8 — guaranteed cleanup and banner on exception -/

/-- Claim C8 confirmed.  On *every* path through `runCode` — success, syntax
failure, or the thrown-and-caught wiring error — the `finally` block leaves the
loading indicator hidden.  When the pre-check passes but the preview element is
missing or not an iframe, the thrown error is caught and surfaced as the error
banner `"Error running code: ..."` while the console (cleared at the start of
the run) receives no entry. -/
theorem C8_cleanup_and_banner (parse : String → HDoc) (pOk : Bool) (jsErr : Option String)
    (html css js : String) (s : AppState) :
    (runCode parse pOk jsErr html css js s).loadingVisible = false ∧
    (jsErr = none → pOk = false →
      (runCode parse pOk jsErr html css js s).errorBanner =
        some "Error running code: Preview element not found or is not an iframe" ∧
      (runCode parse pOk jsErr html css js s).consoleEntries = []) := by
  constructor
  · unfold runCode
    cases hx : (if jsTrim js ≠ "" then jsErr else none) with
    | some m => simp [showLoading, clearConsole, logConsoleError, hideLoading]
    | none =>
        cases pOk <;>
          simp [showLoading, clearConsole, showError, hideLoading, switchOutput, saveState]
  · intro hjs hpok
    subst hjs; subst hpok
    constructor <;> simp [runCode, showLoading, clearConsole, showError, hideLoading]

/-- Witness for C8: a run with valid JS and a missing preview element ends with
the loading indicator hidden, the banner set and no console entry. -/
theorem C8_witness :
    (runCode (fun _ => ⟨[], []⟩) false none "x" "y" "console.log(2)"
        ⟨true, ["stale"], none, 0, [], none, [], [], "preview", 0⟩).loadingVisible = false ∧
    (runCode (fun _ => ⟨[], []⟩) false none "x" "y" "console.log(2)"
        ⟨true, ["stale"], none, 0, [], none, [], [], "preview", 0⟩).errorBanner =
      some "Error running code: Preview element not found or is not an iframe" ∧
    (runCode (fun _ => ⟨[], []⟩) false none "x" "y" "console.log(2)"
        ⟨true, ["stale"], none, 0, [], none, [], [], "preview", 0⟩).consoleEntries = [] := by
  have h := C8_cleanup_and_banner (fun _ => ⟨[], []⟩) false none "x" "y" "console.log(2)"
    ⟨true, ["stale"], none, 0, [], none, [], [], "preview", 0⟩
  exact ⟨h.1, (h.2 rfl rfl).1, (h.2 rfl rfl).2⟩

/-! ### Claim C9 — non-console messages and malformed payloads -/

/-- Claim C9 as stated is false for nullish payloads.  A message whose payload
is `null` does not have `type === "console"`, yet the handler's very first
expression `event.data.type` (console.ts:31) throws a `TypeError` instead of
ignoring the message. -/
theorem C9_counterexample :
    handleConsoleMessage .jnull [] = .error .typeError := rfl

/-- Claim C9 amended: any message whose payload supports property access (an
object, or a non-nullish primitive, for which `.type` reads `undefined`) and
whose `type` is not "console" is ignored without throwing: the console view is
returned unchanged.  Only `null`/`undefined` payloads make the handler throw. -/
theorem C9_amended_non_console_ignored (d : JData) (view : List String) (t : Option String)
    (hread : getTypeField d = .ok t) (hne : t ≠ some "console") :
    handleConsoleMessage d view = .ok view := by
  unfold handleConsoleMessage
  rw [hread]
  simp [hne]

/-- Witness for C9: a message with an unrelated `type` field leaves the view
unchanged. -/
theorem C9_witness :
    handleConsoleMessage (.jobj (some "resize")) ["entry"] = .ok ["entry"] :=
  C9_amended_non_console_ignored (.jobj (some "resize")) ["entry"] (some "resize") rfl
    (by decide)

/-! ### Claim C10 — visited set shared across the whole render -/

/-- Claim C10 confirmed.  (1) An already-visited object renders "[Circular]"
at *any* depth — the visited check fires before the depth guard, so even at
levels beyond 3 the result is "[Circular]", never "[...]".  (2) The visited set
is threaded through the entire render (the single mutable `WeakSet`), not
scoped per path: in a heap where object 1 is shared by two sibling fields — a
DAG, with no cycle anywhere — the first occurrence renders fully and the
second renders "[Circular]". -/
theorem C10_shared_visited_set :
    (∀ (heap : List HObj) (a lvl : Nat) (visited : List Nat),
      a ∈ visited → render heap (.vobj a) lvl visited = (.text "[Circular]", visited)) ∧
    (∀ k₁ k₂ : String,
      render [HObj.plainObj [(k₁, .vobj 1), (k₂, .vobj 1)], HObj.plainObj []]
          (.vobj 0) 0 [] =
        (.objNode "\x7b...\x7d" [(k₁, .objNode "\x7b...\x7d" []), (k₂, .text "[Circular]")],
         [1, 0])) := by
  refine ⟨fun heap a lvl visited h => by unfold render; simp [h],
          fun k₁ k₂ => by simp [render, renderProps]⟩

/-- Witness for C10: a visited object at depth 9 — far beyond the depth guard —
still renders "[Circular]". -/
theorem C10_witness :
    (7 : Nat) ∈ [7] ∧ render [] (.vobj 7) 9 [7] = (.text "[Circular]", [7]) :=
  ⟨by decide, C10_shared_visited_set.1 [] 7 9 [7] (by decide)⟩

end HTMLRunner
